import Mathlib

/-!
Verification development for the Ocean Time Machine VR repository.

The repository has two builds:
* the "portal" build: `scene-manager.js` (class `SceneManager`) plus
  `gaze-controller.js` (classes `GazeController`, `EarthController`);
* the "alternate" build: the `EarthController` in `unnamed/part_002`
  (globe rotation with inertia, auto-play, year switching) together with
  the `CONFIG` object at the top of that file.

Both builds share `animation-controller.js` (classes `AnimationController`,
`AudioController`).

Each definition below is a shallow embedding of one function of the source,
with a comment naming the file and function it embeds.  JavaScript numbers
are modelled as `ℚ` (all the arithmetic the claims touch is exact decimal
arithmetic), timers as explicit state, and the async transition sequence of
`SceneManager.switchScene` as a list of side-effect events together with an
optional fault index modelling a step that throws.
-/

/-! ## Scene manager (`scene-manager.js`, class `SceneManager`) -/

/-- The side effects performed by `SceneManager.switchScene`, in the order the
source awaits or calls them. -/
inductive SMEvent where
  | fadeOutOverlay
  | stopSceneAudio (year : String)
  | hideScene (year : String)
  | commitScene (year : String)
  | showScene (year : String)
  | updateSceneInfo (year : String)
  | startSubtitles (year : String)
  | playTransitionCue
  | settleDelay (ms : Nat)
  | fadeInOverlay
  | playSceneAudio (year : String)
  | updateWaterLevel (year : String)
  deriving DecidableEq

/-- The state of `SceneManager` that `switchScene` reads and writes:
`this.currentScene` and `this.isTransitioning`. -/
structure SMState where
  currentScene : String
  isTransitioning : Bool
  deriving DecidableEq

/-- The ordered list of steps in the body of the `try` block of
`SceneManager.switchScene` (`scene-manager.js` lines 75-121): fade out,
stop current audio, hide current scene, commit `currentScene`, show target,
update UI (`updateSceneInfo` then `startSubtitles`), play the transition cue,
`delay(300)`, fade in, play target audio, update water level. -/
def transitionSteps (fromYear toYear : String) : List SMEvent :=
  [ SMEvent.fadeOutOverlay,
    SMEvent.stopSceneAudio fromYear,
    SMEvent.hideScene fromYear,
    SMEvent.commitScene toYear,
    SMEvent.showScene toYear,
    SMEvent.updateSceneInfo toYear,
    SMEvent.startSubtitles toYear,
    SMEvent.playTransitionCue,
    SMEvent.settleDelay 300,
    SMEvent.fadeInOverlay,
    SMEvent.playSceneAudio toYear,
    SMEvent.updateWaterLevel toYear ]

/-- State effect of one step: only `commitScene` (line 89 of
`scene-manager.js`, `this.currentScene = targetYear`) changes the manager's
state; every other step acts on collaborators. -/
def applyStep (s : SMState) (e : SMEvent) : SMState :=
  match e with
  | SMEvent.commitScene y => { s with currentScene := y }
  | _ => s

/-- Run the steps in order.  `fault = some k` models step `k` (0-based)
throwing: the steps before `k` have executed, step `k` and the rest have not.
Returns the resulting manager state and the list of executed side effects. -/
def runSteps (s : SMState) (steps : List SMEvent) (fault : Option Nat) :
    SMState × List SMEvent :=
  let executed :=
    match fault with
    | none => steps
    | some k => steps.take k
  (executed.foldl applyStep s, executed)

/-- `SceneManager.switchScene(targetYear)` (`scene-manager.js` lines 52-128).
`scenes` is the key set of `CONFIG.scenes` (the truthiness test
`!CONFIG.scenes[targetYear]`).  Guard checks in source order: the
`isTransitioning` re-entry guard, target validation, and the no-op check for
the current scene.  The `finally` block always clears `isTransitioning`,
whether or not a step threw. -/
def switchScene (scenes : List String) (s : SMState) (target : String)
    (fault : Option Nat) : SMState × List SMEvent :=
  if s.isTransitioning then (s, [])
  else if scenes.contains target = false then (s, [])
  else if s.currentScene = target then (s, [])
  else
    let r := runSteps { s with isTransitioning := true }
      (transitionSteps s.currentScene target) fault
    ({ r.1 with isTransitioning := false }, r.2)

/-- C1: a fault-free valid transition A→B with A ≠ B from an idle manager
performs exactly the eleven specified side effects in the specified order
(UI notification appearing as its two calls), and ends with
`currentScene = B` and the transition guard back to idle. -/
theorem switchScene_order_and_postcondition (scenes : List String)
    (s : SMState) (t : String) (hv : scenes.contains t = true)
    (hne : s.currentScene ≠ t) (hidle : s.isTransitioning = false) :
    switchScene scenes s t none =
      ({ currentScene := t, isTransitioning := false },
       [ SMEvent.fadeOutOverlay,
         SMEvent.stopSceneAudio s.currentScene,
         SMEvent.hideScene s.currentScene,
         SMEvent.commitScene t,
         SMEvent.showScene t,
         SMEvent.updateSceneInfo t,
         SMEvent.startSubtitles t,
         SMEvent.playTransitionCue,
         SMEvent.settleDelay 300,
         SMEvent.fadeInOverlay,
         SMEvent.playSceneAudio t,
         SMEvent.updateWaterLevel t ]) := by
  have hv' : t ∈ scenes := by simpa using hv
  simp [switchScene, runSteps, transitionSteps, applyStep, hidle, hv', hne]

/-- Witness for C1 at a concrete transition 2000 → 2020. -/
theorem switchScene_order_and_postcondition_witness :
    (["2000", "2020", "2050"].contains "2020" = true) ∧
    switchScene ["2000", "2020", "2050"]
        { currentScene := "2000", isTransitioning := false } "2020" none =
      ({ currentScene := "2020", isTransitioning := false },
       [ SMEvent.fadeOutOverlay,
         SMEvent.stopSceneAudio "2000",
         SMEvent.hideScene "2000",
         SMEvent.commitScene "2020",
         SMEvent.showScene "2020",
         SMEvent.updateSceneInfo "2020",
         SMEvent.startSubtitles "2020",
         SMEvent.playTransitionCue,
         SMEvent.settleDelay 300,
         SMEvent.fadeInOverlay,
         SMEvent.playSceneAudio "2020",
         SMEvent.updateWaterLevel "2020" ]) :=
  ⟨by decide,
   switchScene_order_and_postcondition ["2000", "2020", "2050"]
     { currentScene := "2000", isTransitioning := false } "2020"
     (by decide) (by decide) rfl⟩

/-- C2: a request arriving while a transition is in progress is rejected
with no state change and no side effects (for any fault behaviour of the
hypothetical sequence); and for a request accepted from an idle manager,
whatever step throws (any `fault`), the `finally` block leaves the guard
idle again. -/
theorem switchScene_guard (scenes : List String) (s : SMState) (t : String)
    (fault : Option Nat) :
    (s.isTransitioning = true → switchScene scenes s t fault = (s, [])) ∧
    (s.isTransitioning = false →
      (switchScene scenes s t fault).1.isTransitioning = false) := by
  constructor
  · intro h
    simp [switchScene, h]
  · intro h
    unfold switchScene
    split
    · exact h
    · split
      · exact h
      · split
        · exact h
        · simp

/-- Witness for C2: a busy manager rejects a request unchanged, and a fault
at step 3 of an accepted transition still leaves the guard idle. -/
theorem switchScene_guard_witness :
    switchScene ["2000", "2020", "2050"]
        { currentScene := "2000", isTransitioning := true } "2020" none =
      ({ currentScene := "2000", isTransitioning := true }, []) ∧
    (switchScene ["2000", "2020", "2050"]
        { currentScene := "2000", isTransitioning := false } "2020"
        (some 3)).1.isTransitioning = false :=
  ⟨(switchScene_guard ["2000", "2020", "2050"]
      { currentScene := "2000", isTransitioning := true } "2020" none).1 rfl,
   (switchScene_guard ["2000", "2020", "2050"]
      { currentScene := "2000", isTransitioning := false } "2020"
      (some 3)).2 rfl⟩

/-! ## Alternate-build EarthController year switching (`unnamed/part_002`) -/

/-- The side effects performed by the alternate build's
`EarthController.switchYear` (`unnamed/part_002` lines 571-612), in source
order. -/
inductive AltEvent where
  | hideSphere (year : String)
  | showSphere (year : String)
  | setSphereRotation (year : String) (x y : Rat)
  | updateButtons (year : String)
  | updateDataPanels (year : String)
  | updateSceneInfo (year : String)
  | playNarration (year : String)
  deriving DecidableEq

/-- The four Earth spheres registered in `setup()` of the alternate build
(`earth-2000` .. `earth-2050`, lines 221-226): `earthSpheres[y]` is non-null
exactly for these keys. -/
def altSphereYears : List String := ["2000", "2010", "2020", "2050"]

/-- The state of the alternate build's `EarthController` that `switchYear`
reads and writes: `this.currentYear` and `this.globeRotation`. -/
structure AltState where
  currentYear : String
  globeRotationX : Rat
  globeRotationY : Rat
  deriving DecidableEq

/-- `EarthController.switchYear(year)` of the alternate build
(`unnamed/part_002` lines 571-612).  The only guard is the self-transition
check `if (this.currentYear === year) return;` — there is no membership
validation of `year`.  The current sphere is hidden (if registered), the
target sphere shown and given the current globe rotation (if registered),
buttons, data panels and UI are updated, narration is played, and
`this.currentYear = year` is committed unconditionally. -/
def switchYear (s : AltState) (year : String) : AltState × List AltEvent :=
  if s.currentYear = year then (s, [])
  else
    let hideEvs :=
      if altSphereYears.contains s.currentYear then
        [AltEvent.hideSphere s.currentYear]
      else []
    let showEvs :=
      if altSphereYears.contains year then
        [AltEvent.showSphere year,
         AltEvent.setSphereRotation year s.globeRotationX s.globeRotationY]
      else []
    ({ s with currentYear := year },
     hideEvs ++ showEvs ++
       [AltEvent.updateButtons year,
        AltEvent.updateDataPanels year,
        AltEvent.updateSceneInfo year,
        AltEvent.playNarration year])

/-- C3 counterexample: in the alternate build, requesting the non-member year
"1999" from current year "2000" is NOT rejected — it commits
`currentYear = "1999"` and performs side effects (hiding the 2000 sphere and
updating the UI), refuting the claim that every build leaves state unchanged
with no side effects for years outside the closed set. -/
theorem switchYear_accepts_invalid_year :
    altSphereYears.contains "1999" = false ∧
    switchYear { currentYear := "2000", globeRotationX := 0,
                 globeRotationY := 0 } "1999" =
      ({ currentYear := "1999", globeRotationX := 0, globeRotationY := 0 },
       [ AltEvent.hideSphere "2000",
         AltEvent.updateButtons "1999",
         AltEvent.updateDataPanels "1999",
         AltEvent.updateSceneInfo "1999",
         AltEvent.playNarration "1999" ]) := by
  constructor
  · decide
  · simp [switchYear, altSphereYears]

/-- C3 amended: the rejection of non-member years holds only in the portal
build — `SceneManager.switchScene` leaves the state unchanged and performs
no side effects for any target outside `CONFIG.scenes` (for any fault
behaviour) — while the alternate build's `switchYear` performs no membership
validation: any year different from the current one (member or not) is
accepted and committed as `currentYear`. -/
theorem invalid_year_rejection_portal_only (scenes : List String)
    (s : SMState) (t : String) (fault : Option Nat) (a : AltState)
    (y : String) (ht : scenes.contains t = false) (hy : a.currentYear ≠ y) :
    switchScene scenes s t fault = (s, []) ∧
    (switchYear a y).1.currentYear = y := by
  have ht' : t ∉ scenes := by simpa using ht
  constructor
  · simp [switchScene, ht']
  · simp [switchYear, hy]

/-- Witness for the amended C3: the portal build rejects "1999" untouched,
and the alternate build commits "1999" as the current year. -/
theorem invalid_year_rejection_portal_only_witness :
    switchScene ["2000", "2020", "2050"]
        { currentScene := "2000", isTransitioning := false } "1999" none =
      ({ currentScene := "2000", isTransitioning := false }, []) ∧
    (switchYear { currentYear := "2000", globeRotationX := 0,
                  globeRotationY := 0 } "1999").1.currentYear = "1999" :=
  invalid_year_rejection_portal_only ["2000", "2020", "2050"]
    { currentScene := "2000", isTransitioning := false } "1999" none
    { currentYear := "2000", globeRotationX := 0, globeRotationY := 0 }
    "1999" (by decide) (by decide)

/-! ## Audio fade engine (`animation-controller.js`, class `AudioController`) -/

/-- The parameters a fade interval closure captures when it is created:
`fadeIn` captures the target volume (`this.masterVolume`), `fadeOut` the
start volume (`audioEl.volume` at call time). -/
inductive FadeKind where
  | fadeInKind (target : Rat)
  | fadeOutKind (start : Rat)
  deriving DecidableEq

/-- One live `setInterval` timer created by `fadeIn` or `fadeOut`. -/
structure FadeTimerRec where
  id : Nat
  kind : FadeKind
  currentStep : Nat
  deriving DecidableEq

/-- An audio element together with the live fade interval timers targeting
it.  `nextId` issues fresh interval ids; `cbFired` counts fade-out completion
callbacks. -/
structure AudioElem where
  volume : Rat
  timers : List FadeTimerRec
  nextId : Nat
  cbFired : Nat
  deriving DecidableEq

/-- `AudioController.fadeIn(audioEl)` at call time (`animation-controller.js`
lines 441-462, shown at lines 441-462 of the concatenated file): sets
`audioEl.volume = 0` and registers a fresh interval.  No existing timer on
the element is looked up or cleared. -/
def fadeInCall (a : AudioElem) (target : Rat) : AudioElem :=
  { a with volume := 0,
           timers := a.timers ++ [⟨a.nextId, FadeKind.fadeInKind target, 0⟩],
           nextId := a.nextId + 1 }

/-- `AudioController.fadeOut(audioEl, callback)` at call time
(`animation-controller.js` lines 469-490): captures
`startVolume = audioEl.volume` and registers a fresh interval.  No existing
timer on the element is looked up or cleared. -/
def fadeOutCall (a : AudioElem) : AudioElem :=
  { a with timers := a.timers ++ [⟨a.nextId, FadeKind.fadeOutKind a.volume, 0⟩],
           nextId := a.nextId + 1 }

/-- C4 counterexample: calling `fadeOut` and then immediately `fadeIn` on the
same element (before any interval tick of the first fade has run) leaves TWO
live interval timers on the element, and the timer registered by the first
call is still among them — the second call does not supersede the first. -/
theorem rapid_fades_leave_two_timers :
    (fadeInCall (fadeOutCall ⟨7/10, [], 0, 0⟩) (7/10)).timers.length = 2 ∧
    (⟨0, FadeKind.fadeOutKind (7/10), 0⟩ : FadeTimerRec) ∈
      (fadeInCall (fadeOutCall ⟨7/10, [], 0, 0⟩) (7/10)).timers := by
  constructor
  · rfl
  · simp [fadeInCall, fadeOutCall]

/-- C4 amended: neither `fadeIn` nor `fadeOut` cancels a prior fade interval
on the element.  Each call adds exactly one fresh interval timer and keeps
every previously live timer, so a pair of rapid successive fade calls on the
same channel leaves two competing interval timers alive (each terminates only
through its own step/volume condition, not through supersession). -/
theorem fade_calls_never_cancel (a : AudioElem) (target : Rat) :
    (fadeInCall a target).timers.length = a.timers.length + 1 ∧
    (fadeOutCall a).timers.length = a.timers.length + 1 ∧
    (∀ t ∈ a.timers, t ∈ (fadeInCall a target).timers) ∧
    (∀ t ∈ a.timers, t ∈ (fadeOutCall a).timers) := by
  refine ⟨?_, ?_, ?_, ?_⟩
  · simp [fadeInCall]
  · simp [fadeOutCall]
  · intro t ht
    simp [fadeInCall, ht]
  · intro t ht
    simp [fadeOutCall, ht]

/-! ## Fade interval tick semantics (C5)

The interval callbacks of `fadeIn` and `fadeOut` run to completion without
interference (no other fade started on the element), so each is modelled as
a single timer state machine; `active = false` models the state after
`clearInterval`. -/

/-- The state of one `fadeOut` interval (`animation-controller.js` lines
478-489): the step counter, the element volume it drives, the captured
`startVolume`, whether the interval is still scheduled, and how many times
the completion callback has fired. -/
structure FadeOutTimer where
  active : Bool
  currentStep : Nat
  volume : Rat
  startVolume : Rat
  cbCount : Nat
  deriving DecidableEq

/-- State when `fadeOut(audioEl, callback)` starts its interval: the captured
start volume is the element's volume, no step has run, no callback fired. -/
def fadeOutStart (s : Rat) : FadeOutTimer :=
  { active := true, currentStep := 0, volume := s, startVolume := s,
    cbCount := 0 }

/-- One tick of the `fadeOut` interval callback:
`currentStep++; audioEl.volume = Math.max(startVolume - volumeStep * currentStep, 0);
if (currentStep >= steps || audioEl.volume <= 0) { clearInterval; audioEl.volume = 0; callback(); }`
with `steps = 20` and `volumeStep = startVolume / 20`.  A cleared interval
never runs again. -/
def fadeOutTick (t : FadeOutTimer) : FadeOutTimer :=
  if t.active = false then t
  else
    let step := t.currentStep + 1
    let vol := max (t.startVolume - t.startVolume / 20 * step) 0
    if 20 ≤ step ∨ vol ≤ 0 then
      { active := false, currentStep := step, volume := 0,
        startVolume := t.startVolume, cbCount := t.cbCount + 1 }
    else
      { t with currentStep := step, volume := vol }

/-- The state of one `fadeIn` interval (`animation-controller.js` lines
450-461). `fadeIn` has no completion callback. -/
structure FadeInTimer where
  active : Bool
  currentStep : Nat
  volume : Rat
  target : Rat
  deriving DecidableEq

/-- State when `fadeIn(audioEl)` starts its interval: `audioEl.volume = 0`
has just been executed and the captured target is `this.masterVolume`. -/
def fadeInStart (target : Rat) : FadeInTimer :=
  { active := true, currentStep := 0, volume := 0, target := target }

/-- One tick of the `fadeIn` interval callback:
`currentStep++; audioEl.volume = Math.min(volumeStep * currentStep, targetVolume);
if (currentStep >= steps) { clearInterval; audioEl.volume = targetVolume; }`
with `steps = 20` and `volumeStep = targetVolume / 20`. -/
def fadeInTick (t : FadeInTimer) : FadeInTimer :=
  if t.active = false then t
  else
    let step := t.currentStep + 1
    let vol := min (t.target / 20 * step) t.target
    if 20 ≤ step then
      { active := false, currentStep := step, volume := t.target,
        target := t.target }
    else
      { t with currentStep := step, volume := vol }

lemma fadeOutTick_inactive (t : FadeOutTimer) (h : t.active = false) :
    fadeOutTick t = t := by
  simp [fadeOutTick, h]

lemma fadeInTick_inactive (t : FadeInTimer) (h : t.active = false) :
    fadeInTick t = t := by
  simp [fadeInTick, h]

lemma fadeOut_iter_of_lt (s : Rat) (hs : 0 < s) :
    ∀ k, k < 20 → fadeOutTick^[k] (fadeOutStart s) =
      { active := true, currentStep := k, volume := s - s / 20 * k,
        startVolume := s, cbCount := 0 } := by
  intro k
  induction k with
  | zero =>
      intro _
      simp [fadeOutStart]
  | succ n ih =>
      intro hk
      have hn : n < 20 := by omega
      rw [Function.iterate_succ_apply', ih hn]
      have h20 : ((n : Rat) + 1) < 20 := by exact_mod_cast hk
      have hq : (0 : Rat) < s / 20 := by positivity
      have hmul : s / 20 * ((n : Rat) + 1) < s / 20 * 20 :=
        mul_lt_mul_of_pos_left h20 hq
      have hcancel : s / 20 * 20 = s := div_mul_cancel₀ s (by norm_num)
      have hpos : 0 < s - s / 20 * ((n : Rat) + 1) := by
        rw [hcancel] at hmul
        linarith
      have hcast : (((n + 1 : Nat) : Rat)) = (n : Rat) + 1 := by push_cast; ring
      have hstep : ¬ (20 ≤ n + 1) := by omega
      have hmax : max (s - s / 20 * ((n + 1 : Nat) : Rat)) 0
          = s - s / 20 * ((n + 1 : Nat) : Rat) := by
        rw [hcast]
        exact max_eq_left hpos.le
      have hvol : ¬ (max (s - s / 20 * ((n + 1 : Nat) : Rat)) 0 ≤ 0) := by
        rw [hmax, hcast]
        exact not_le.mpr hpos
      simp only [fadeOutTick]
      rw [if_neg (by simp)]
      rw [if_neg (not_or.mpr ⟨hstep, hvol⟩)]
      rw [hmax]

lemma fadeOut_iter_final (s : Rat) (hs : 0 < s) :
    ∀ m, 20 ≤ m → fadeOutTick^[m] (fadeOutStart s) =
      { active := false, currentStep := 20, volume := 0, startVolume := s,
        cbCount := 1 } := by
  have h20 : fadeOutTick^[20] (fadeOutStart s) =
      { active := false, currentStep := 20, volume := 0, startVolume := s,
        cbCount := 1 } := by
    have h19 := fadeOut_iter_of_lt s hs 19 (by omega)
    have : (20 : Nat) = 19 + 1 := by omega
    rw [this, Function.iterate_succ_apply', h19]
    simp [fadeOutTick]
  intro m hm
  obtain ⟨j, rfl⟩ : ∃ j, m = j + 20 := ⟨m - 20, by omega⟩
  rw [Function.iterate_add_apply, h20]
  exact Function.iterate_fixed (fadeOutTick_inactive _ rfl) j

lemma fadeOut_volume_closed (s : Rat) (hs : 0 < s) (k : Nat) :
    (fadeOutTick^[k] (fadeOutStart s)).volume =
      if k < 20 then s - s / 20 * k else 0 := by
  by_cases hk : k < 20
  · rw [fadeOut_iter_of_lt s hs k hk, if_pos hk]
  · rw [fadeOut_iter_final s hs k (by omega), if_neg hk]

lemma fadeOut_volume_antitone (s : Rat) (hs : 0 < s) (j k : Nat)
    (hjk : j ≤ k) :
    (fadeOutTick^[k] (fadeOutStart s)).volume ≤
      (fadeOutTick^[j] (fadeOutStart s)).volume := by
  rw [fadeOut_volume_closed s hs j, fadeOut_volume_closed s hs k]
  have hq : (0 : Rat) ≤ s / 20 := by positivity
  split_ifs with h1 h2 h2
  · have hjk' : (j : Rat) ≤ k := by exact_mod_cast hjk
    have := mul_le_mul_of_nonneg_left hjk' hq
    linarith
  · omega
  · have h2' : (j : Rat) < 20 := by exact_mod_cast h2
    have hmul : s / 20 * (j : Rat) ≤ s / 20 * 20 :=
      mul_le_mul_of_nonneg_left h2'.le hq
    have hcancel : s / 20 * 20 = s := div_mul_cancel₀ s (by norm_num)
    linarith
  · exact le_refl 0

lemma fadeIn_iter_of_lt (t : Rat) (ht : 0 ≤ t) :
    ∀ k, k < 20 → fadeInTick^[k] (fadeInStart t) =
      { active := true, currentStep := k, volume := t / 20 * k,
        target := t } := by
  intro k
  induction k with
  | zero =>
      intro _
      simp [fadeInStart]
  | succ n ih =>
      intro hk
      have hn : n < 20 := by omega
      rw [Function.iterate_succ_apply', ih hn]
      have hcast : (((n + 1 : Nat) : Rat)) = (n : Rat) + 1 := by
        push_cast; ring
      have hq : (0 : Rat) ≤ t / 20 := by positivity
      have hle : t / 20 * ((n + 1 : Nat) : Rat) ≤ t := by
        have h20 : ((n + 1 : Nat) : Rat) ≤ 20 := by
          rw [hcast]
          exact_mod_cast Nat.le_of_lt hk
        have hmul : t / 20 * ((n + 1 : Nat) : Rat) ≤ t / 20 * 20 :=
          mul_le_mul_of_nonneg_left h20 hq
        have hcancel : t / 20 * 20 = t := div_mul_cancel₀ t (by norm_num)
        linarith
      have hstep : ¬ (20 ≤ n + 1) := by omega
      simp only [fadeInTick]
      rw [if_neg (by simp)]
      rw [if_neg hstep]
      rw [min_eq_left hle]

lemma fadeIn_iter_final (t : Rat) (ht : 0 ≤ t) :
    ∀ m, 20 ≤ m → fadeInTick^[m] (fadeInStart t) =
      { active := false, currentStep := 20, volume := t, target := t } := by
  have h20 : fadeInTick^[20] (fadeInStart t) =
      { active := false, currentStep := 20, volume := t, target := t } := by
    have h19 := fadeIn_iter_of_lt t ht 19 (by omega)
    have heq : (20 : Nat) = 19 + 1 := by omega
    rw [heq, Function.iterate_succ_apply', h19]
    simp [fadeInTick]
  intro m hm
  obtain ⟨j, rfl⟩ : ∃ j, m = j + 20 := ⟨m - 20, by omega⟩
  rw [Function.iterate_add_apply, h20]
  exact Function.iterate_fixed (fadeInTick_inactive _ rfl) j

lemma fadeIn_volume_closed (t : Rat) (ht : 0 ≤ t) (k : Nat) :
    (fadeInTick^[k] (fadeInStart t)).volume =
      if k < 20 then t / 20 * k else t := by
  by_cases hk : k < 20
  · rw [fadeIn_iter_of_lt t ht k hk, if_pos hk]
  · rw [fadeIn_iter_final t ht k (by omega), if_neg hk]

lemma fadeIn_volume_monotone (t : Rat) (ht : 0 ≤ t) (j k : Nat)
    (hjk : j ≤ k) :
    (fadeInTick^[j] (fadeInStart t)).volume ≤
      (fadeInTick^[k] (fadeInStart t)).volume := by
  rw [fadeIn_volume_closed t ht j, fadeIn_volume_closed t ht k]
  have hq : (0 : Rat) ≤ t / 20 := by positivity
  split_ifs with h1 h2 h2
  · have hjk' : (j : Rat) ≤ k := by exact_mod_cast hjk
    exact mul_le_mul_of_nonneg_left hjk' hq
  · have h1' : (j : Rat) ≤ 20 := by exact_mod_cast Nat.le_of_lt h1
    have hmul : t / 20 * (j : Rat) ≤ t / 20 * 20 :=
      mul_le_mul_of_nonneg_left h1' hq
    have hcancel : t / 20 * 20 = t := div_mul_cancel₀ t (by norm_num)
    linarith
  · omega
  · exact le_refl t

/-- C5: run to completion without interference, a fade-out (start volume
`s > 0`) has a monotonically non-increasing volume sequence, deactivates at
its 20th step with volume exactly 0 and the completion callback fired exactly
once, and stays there; a fade-in (target `t ≥ 0`, the clamped master volume)
has a monotonically non-decreasing volume sequence and deactivates at its
20th step with volume exactly the target — both terminate exactly at the
target, never asymptotically. -/
theorem fades_monotone_terminate_exactly (s t : Rat) (hs : 0 < s)
    (ht : 0 ≤ t) :
    (∀ j k, j ≤ k → (fadeOutTick^[k] (fadeOutStart s)).volume ≤
        (fadeOutTick^[j] (fadeOutStart s)).volume) ∧
    (∀ m, 20 ≤ m → fadeOutTick^[m] (fadeOutStart s) =
      { active := false, currentStep := 20, volume := 0, startVolume := s,
        cbCount := 1 }) ∧
    (∀ j k, j ≤ k → (fadeInTick^[j] (fadeInStart t)).volume ≤
        (fadeInTick^[k] (fadeInStart t)).volume) ∧
    (∀ m, 20 ≤ m → fadeInTick^[m] (fadeInStart t) =
      { active := false, currentStep := 20, volume := t, target := t }) :=
  ⟨fun j k hjk => fadeOut_volume_antitone s hs j k hjk,
   fadeOut_iter_final s hs,
   fun j k hjk => fadeIn_volume_monotone t ht j k hjk,
   fadeIn_iter_final t ht⟩

/-- Witness for C5 at the configured master volume 0.7: after 25 ticks the
fade-out sits at volume exactly 0 with the callback fired exactly once, and
the fade-in at exactly 0.7, and between ticks 3 and 7 the fade-out volume
has not increased. -/
theorem fades_monotone_terminate_exactly_witness :
    (0 : Rat) < 7 / 10 ∧
    fadeOutTick^[25] (fadeOutStart (7 / 10)) =
      { active := false, currentStep := 20, volume := 0,
        startVolume := 7 / 10, cbCount := 1 } ∧
    fadeInTick^[25] (fadeInStart (7 / 10)) =
      { active := false, currentStep := 20, volume := 7 / 10,
        target := 7 / 10 } ∧
    (fadeOutTick^[7] (fadeOutStart (7 / 10))).volume ≤
      (fadeOutTick^[3] (fadeOutStart (7 / 10))).volume :=
  ⟨by norm_num,
   (fades_monotone_terminate_exactly (7 / 10) (7 / 10) (by norm_num)
      (by norm_num)).2.1 25 (by norm_num),
   (fades_monotone_terminate_exactly (7 / 10) (7 / 10) (by norm_num)
      (by norm_num)).2.2.2 25 (by norm_num),
   (fades_monotone_terminate_exactly (7 / 10) (7 / 10) (by norm_num)
      (by norm_num)).1 3 7 (by norm_num)⟩

/-! ## Drag rotation (C6)

Portal build: `EarthController.setupEarthRotation` in `gaze-controller.js`
(mousemove handler, lines 512-529).  Alternate build:
`EarthController.setupGlobeRotation` in `unnamed/part_002` (mousemove
handler, lines 426-462). -/

/-- `currentRotation` of the portal build / `globeRotation` of the alternate
build: `x` is the pitch, `y` the yaw, both in degrees. -/
structure Rotation2 where
  x : Rat
  y : Rat
  deriving DecidableEq

/-- One mousemove of the portal build's drag handler
(`gaze-controller.js` lines 512-529):
`currentRotation.y += deltaX * 0.5; currentRotation.x -= deltaY * 0.5;
currentRotation.x = Math.max(-90, Math.min(90, currentRotation.x));`. -/
def earthDragMove (r : Rotation2) (dx dy : Rat) : Rotation2 :=
  let y := r.y + dx * (1 / 2)
  let x := r.x - dy * (1 / 2)
  { x := max (-90) (min 90 x), y := y }

/-- A drag as a list of (deltaX, deltaY) mousemove deltas, folded through the
portal build's handler. -/
def earthDragRun (r : Rotation2) (ds : List (Rat × Rat)) : Rotation2 :=
  ds.foldl (fun acc d => earthDragMove acc d.1 d.2) r

/-- One mousemove of the alternate build's globe drag handler
(`unnamed/part_002` lines 426-462):
`rotX = -deltaY * rotationSpeed; rotY = deltaX * rotationSpeed;
globeRotation.y += rotY; globeRotation.x += rotX;` with
`rotationSpeed = 0.5` and NO clamp on either axis. -/
def globeDragMove (r : Rotation2) (dx dy : Rat) : Rotation2 :=
  { x := r.x + -dy * (1 / 2), y := r.y + dx * (1 / 2) }

/-- A drag folded through the alternate build's handler. -/
def globeDragRun (r : Rotation2) (ds : List (Rat × Rat)) : Rotation2 :=
  ds.foldl (fun acc d => globeDragMove acc d.1 d.2) r

/-- C6 counterexample: in the alternate build, a single upward drag delta of
220 pixels from rotation (0, 0) leaves pitch at 110 degrees — outside
[-90, +90] — so the claim that the pitch component of the rotation state is
always clamped to [-90, +90] fails on `setupGlobeRotation`. -/
theorem globe_pitch_not_clamped :
    (globeDragRun { x := 0, y := 0 } [((0 : Rat), (-220 : Rat))]).x = 110 ∧
    ¬ (globeDragRun { x := 0, y := 0 } [((0 : Rat), (-220 : Rat))]).x ≤ 90 := by
  constructor
  · norm_num [globeDragRun, globeDragMove]
  · norm_num [globeDragRun, globeDragMove]

lemma earthDragMove_pitch_bounds (r : Rotation2) (dx dy : Rat) :
    -90 ≤ (earthDragMove r dx dy).x ∧ (earthDragMove r dx dy).x ≤ 90 := by
  constructor
  · exact le_max_left _ _
  · simp only [earthDragMove]
    exact max_le (by norm_num) (min_le_left _ _)

lemma earthDragRun_pitch_bounds (ds : List (Rat × Rat)) :
    ∀ r : Rotation2, -90 ≤ r.x → r.x ≤ 90 →
      -90 ≤ (earthDragRun r ds).x ∧ (earthDragRun r ds).x ≤ 90 := by
  induction ds with
  | nil => intro r hlo hhi; exact ⟨hlo, hhi⟩
  | cons d tl ih =>
      intro r hlo hhi
      have hb := earthDragMove_pitch_bounds r d.1 d.2
      exact ih (earthDragMove r d.1 d.2) hb.1 hb.2

lemma earthDragRun_yaw (ds : List (Rat × Rat)) :
    ∀ r : Rotation2,
      (earthDragRun r ds).y = r.y + (ds.map Prod.fst).sum * (1 / 2) := by
  induction ds with
  | nil => intro r; simp [earthDragRun]
  | cons d tl ih =>
      intro r
      have step : earthDragRun r (d :: tl) =
          earthDragRun (earthDragMove r d.1 d.2) tl := rfl
      rw [step, ih]
      simp [earthDragMove]
      ring

lemma globeDragRun_pitch (ds : List (Rat × Rat)) :
    ∀ r : Rotation2,
      (globeDragRun r ds).x = r.x + (ds.map (fun d => -d.2)).sum * (1 / 2) := by
  induction ds with
  | nil => intro r; simp [globeDragRun]
  | cons d tl ih =>
      intro r
      have step : globeDragRun r (d :: tl) =
          globeDragRun (globeDragMove r d.1 d.2) tl := rfl
      rw [step, ih]
      simp [globeDragMove]
      ring

/-- C6 amended: the pitch clamp holds only in the portal build.  There,
for any drag starting with pitch in [-90, +90]: pitch stays in [-90, +90]
after every sequence of deltas; a single move whose unclamped pitch would
reach or pass +90 leaves pitch exactly 90 while yaw still accumulates its
own delta (independent axes); and yaw accumulates unbounded as the running
sum of deltaX * 0.5.  In the alternate build's `setupGlobeRotation` there
is no clamp: pitch is the plain running sum of -deltaY * 0.5. -/
theorem pitch_clamp_portal_build_only (r : Rotation2) (ds : List (Rat × Rat))
    (dx dy : Rat) (hlo : -90 ≤ r.x) (hhi : r.x ≤ 90)
    (hpush : 90 ≤ r.x - dy * (1 / 2)) :
    (-90 ≤ (earthDragRun r ds).x ∧ (earthDragRun r ds).x ≤ 90) ∧
    (earthDragMove r dx dy).x = 90 ∧
    (earthDragMove r dx dy).y = r.y + dx * (1 / 2) ∧
    (earthDragRun r ds).y = r.y + (ds.map Prod.fst).sum * (1 / 2) ∧
    (globeDragRun r ds).x = r.x + (ds.map (fun d => -d.2)).sum * (1 / 2) := by
  refine ⟨earthDragRun_pitch_bounds ds r hlo hhi, ?_, rfl,
    earthDragRun_yaw ds r, globeDragRun_pitch ds r⟩
  simp only [earthDragMove]
  rw [min_eq_left hpush]
  exact max_eq_right (by norm_num)

/-- Witness for the amended C6: from (0, 0), a move with deltaY = -200 would
push the unclamped pitch to 100 and the clamp leaves exactly 90, with yaw
getting its own delta; a drag of three rightward moves accumulates yaw 15. -/
theorem pitch_clamp_portal_build_only_witness :
    (-90 ≤ (earthDragRun { x := 0, y := 0 }
        [(10, 10), (10, 10), (10, 10)]).x ∧
      (earthDragRun { x := 0, y := 0 } [(10, 10), (10, 10), (10, 10)]).x ≤ 90) ∧
    (earthDragMove { x := 0, y := 0 } 2 (-200)).x = 90 ∧
    (earthDragMove { x := 0, y := 0 } 2 (-200)).y = 0 + 2 * (1 / 2) ∧
    (earthDragRun { x := 0, y := 0 } [(10, 10), (10, 10), (10, 10)]).y =
      0 + ([(10, 10), (10, 10), (10, 10)].map
        (Prod.fst (α := Rat) (β := Rat))).sum * (1 / 2) ∧
    (globeDragRun { x := 0, y := 0 } [(10, 10), (10, 10), (10, 10)]).x =
      0 + ([(10, 10), (10, 10), (10, 10)].map
        (fun d : Rat × Rat => -d.2)).sum * (1 / 2) :=
  pitch_clamp_portal_build_only { x := 0, y := 0 }
    [(10, 10), (10, 10), (10, 10)] 2 (-200) (by norm_num) (by norm_num)
    (by norm_num)

/-! ## Inertia loop (C7)

`EarthController.setupGlobeRotation` in `unnamed/part_002`: the
`applyInertia` animation-frame loop (lines 376-401) and the `mousedown`
handler that cancels it (lines 404-424). -/

/-- `damping = 0.96` (`unnamed/part_002` line 370). -/
def damping : Rat := 96 / 100

/-- `minVelocity = 0.01` (`unnamed/part_002` line 371). -/
def minVelocity : Rat := 1 / 100

/-- The state the inertia loop reads and writes: `this.globeRotation`, the
closure variable `velocity`, and whether an animation frame is scheduled
(`active = false` once the loop stops rescheduling or the frame is
cancelled). -/
structure InertiaState where
  rotX : Rat
  rotY : Rat
  vX : Rat
  vY : Rat
  active : Bool
  deriving DecidableEq

/-- One run of `applyInertia` (`unnamed/part_002` lines 376-401): if not
dragging and a velocity component exceeds `minVelocity`, add the velocity to
the rotation, damp it, and schedule the next frame; otherwise zero the
velocity and stop rescheduling.  A state with no scheduled frame stays
put. -/
def applyInertia (isDragging : Bool) (s : InertiaState) : InertiaState :=
  if s.active = false then s
  else if isDragging = false ∧
      (minVelocity < |s.vX| ∨ minVelocity < |s.vY|) then
    { rotX := s.rotX + s.vX, rotY := s.rotY + s.vY,
      vX := s.vX * damping, vY := s.vY * damping, active := true }
  else
    { s with vX := 0, vY := 0, active := false }

/-- The `mousedown` handler's effect on the inertia state
(`unnamed/part_002` lines 404-424): `velocity = { x: 0, y: 0 }` and
`cancelAnimationFrame(inertiaAnimationId)` — the rotation is untouched. -/
def inertiaMouseDown (s : InertiaState) : InertiaState :=
  { s with vX := 0, vY := 0, active := false }

lemma applyInertia_inactive (b : Bool) (s : InertiaState)
    (h : s.active = false) : applyInertia b s = s := by
  simp [applyInertia, h]

lemma applyInertia_step_active (s : InertiaState) (h : s.active = true) :
    applyInertia false s =
      if minVelocity < |s.vX| ∨ minVelocity < |s.vY| then
        { rotX := s.rotX + s.vX, rotY := s.rotY + s.vY,
          vX := s.vX * damping, vY := s.vY * damping, active := true }
      else { s with vX := 0, vY := 0, active := false } := by
  simp [applyInertia, h]

lemma applyInertia_iterate_active (s : InertiaState) :
    ∀ k, ((applyInertia false)^[k] s).active = true →
      ((applyInertia false)^[k] s).vX = s.vX * damping ^ k ∧
      ((applyInertia false)^[k] s).vY = s.vY * damping ^ k := by
  intro k
  induction k with
  | zero => intro _; simp
  | succ n ih =>
      intro hact
      rw [Function.iterate_succ_apply'] at hact ⊢
      by_cases hn : ((applyInertia false)^[n] s).active = true
      · obtain ⟨hx, hy⟩ := ih hn
        rw [applyInertia_step_active _ hn] at hact ⊢
        by_cases hcond : minVelocity < |((applyInertia false)^[n] s).vX| ∨
            minVelocity < |((applyInertia false)^[n] s).vY|
        · rw [if_pos hcond]
          constructor
          · show ((applyInertia false)^[n] s).vX * damping =
              s.vX * damping ^ (n + 1)
            rw [hx, pow_succ]
            ring
          · show ((applyInertia false)^[n] s).vY * damping =
              s.vY * damping ^ (n + 1)
            rw [hy, pow_succ]
            ring
        · rw [if_neg hcond] at hact
          simp at hact
      · have hn' : ((applyInertia false)^[n] s).active = false := by
          simpa using hn
        rw [applyInertia_inactive false _ hn'] at hact
        exact absurd hact (by simp [hn'])

lemma applyInertia_iterate_inactive_zero (s : InertiaState)
    (hs : s.active = true) :
    ∀ k, ((applyInertia false)^[k] s).active = false →
      ((applyInertia false)^[k] s).vX = 0 ∧
      ((applyInertia false)^[k] s).vY = 0 := by
  intro k
  induction k with
  | zero => intro h; rw [Function.iterate_zero_apply] at h; simp_all
  | succ n ih =>
      intro h
      rw [Function.iterate_succ_apply'] at h ⊢
      by_cases hn : ((applyInertia false)^[n] s).active = true
      · rw [applyInertia_step_active _ hn] at h ⊢
        by_cases hcond : minVelocity < |((applyInertia false)^[n] s).vX| ∨
            minVelocity < |((applyInertia false)^[n] s).vY|
        · rw [if_pos hcond] at h
          simp at h
        · rw [if_neg hcond]
          exact ⟨rfl, rfl⟩
      · have hn' : ((applyInertia false)^[n] s).active = false := by
          simpa using hn
        rw [applyInertia_inactive false _ hn'] at h ⊢
        exact ih h

lemma damping_decay (c : Rat) (hc : 0 ≤ c) :
    ∃ n, ∀ m, n ≤ m → c * damping ^ m ≤ minVelocity := by
  rcases eq_or_lt_of_le hc with hc0 | hcpos
  · refine ⟨0, fun m _ => ?_⟩
    rw [← hc0]
    rw [zero_mul]
    norm_num [minVelocity]
  · have hd0 : (0 : Rat) ≤ damping := by norm_num [damping]
    have hd1 : damping < 1 := by norm_num [damping]
    have hx : (0 : Rat) < minVelocity / c := by
      have hmv : (0 : Rat) < minVelocity := by norm_num [minVelocity]
      positivity
    obtain ⟨n, hn⟩ := exists_pow_lt_of_lt_one hx hd1
    refine ⟨n, fun m hm => ?_⟩
    have hmono : damping ^ m ≤ damping ^ n :=
      pow_le_pow_of_le_one hd0 hd1.le hm
    have hlt : damping ^ m < minVelocity / c := lt_of_le_of_lt hmono hn
    have hml := mul_lt_mul_of_pos_left hlt hcpos
    rw [mul_div_cancel₀ _ (ne_of_gt hcpos)] at hml
    exact hml.le

/-- C7: started after a release (a frame is scheduled), the inertia loop
changes the rotation for only finitely many ticks: there is a tick count
after which the state is permanently inactive with velocity zeroed and the
rotation never changes again (the damping factor 0.96 < 1 drives both
components below the 0.01 threshold); and a tick run while a new drag is in
progress never changes the rotation, while the mousedown handler itself
cancels the loop outright with the rotation untouched. -/
theorem inertia_terminates_and_drag_halts (s : InertiaState)
    (hs : s.active = true) :
    (∃ n, ∀ m, n ≤ m →
      ((applyInertia false)^[m] s).active = false ∧
      ((applyInertia false)^[m] s).vX = 0 ∧
      ((applyInertia false)^[m] s).vY = 0 ∧
      (applyInertia false)^[m + 1] s = (applyInertia false)^[m] s) ∧
    (∀ u : InertiaState, (applyInertia true u).rotX = u.rotX ∧
      (applyInertia true u).rotY = u.rotY) ∧
    (∀ u : InertiaState, (inertiaMouseDown u).active = false ∧
      (inertiaMouseDown u).rotX = u.rotX ∧
      (inertiaMouseDown u).rotY = u.rotY ∧
      ∀ b, applyInertia b (inertiaMouseDown u) = inertiaMouseDown u) := by
  refine ⟨?_, ?_, ?_⟩
  · obtain ⟨n1, h1⟩ := damping_decay |s.vX| (abs_nonneg _)
    obtain ⟨n2, h2⟩ := damping_decay |s.vY| (abs_nonneg _)
    refine ⟨max n1 n2 + 1, fun m hm => ?_⟩
    have hinact : ((applyInertia false)^[m] s).active = false := by
      by_contra hact
      have hact' : ((applyInertia false)^[m] s).active = true := by
        simpa using hact
      obtain ⟨m', rfl⟩ : ∃ m', m = m' + 1 := ⟨m - 1, by omega⟩
      rw [Function.iterate_succ_apply'] at hact'
      have hprev : ((applyInertia false)^[m'] s).active = true := by
        by_contra hp
        have hp' : ((applyInertia false)^[m'] s).active = false := by
          simpa using hp
        rw [applyInertia_inactive false _ hp'] at hact'
        exact absurd hact' (by simp [hp'])
      obtain ⟨hvx, hvy⟩ := applyInertia_iterate_active s m' hprev
      have hm' : max n1 n2 ≤ m' := by omega
      have hb1 : |s.vX| * damping ^ m' ≤ minVelocity :=
        h1 m' (le_trans (le_max_left _ _) hm')
      have hb2 : |s.vY| * damping ^ m' ≤ minVelocity :=
        h2 m' (le_trans (le_max_right _ _) hm')
      have hdpow : (0 : Rat) ≤ damping ^ m' := by
        have : (0 : Rat) ≤ damping := by norm_num [damping]
        positivity
      have habs1 : |((applyInertia false)^[m'] s).vX| ≤ minVelocity := by
        rw [hvx, abs_mul, abs_of_nonneg hdpow]
        exact hb1
      have habs2 : |((applyInertia false)^[m'] s).vY| ≤ minVelocity := by
        rw [hvy, abs_mul, abs_of_nonneg hdpow]
        exact hb2
      have hcond : ¬ (minVelocity < |((applyInertia false)^[m'] s).vX| ∨
          minVelocity < |((applyInertia false)^[m'] s).vY|) :=
        not_or.mpr ⟨not_lt.mpr habs1, not_lt.mpr habs2⟩
      rw [applyInertia_step_active _ hprev, if_neg hcond] at hact'
      simp at hact'
    obtain ⟨hz1, hz2⟩ := applyInertia_iterate_inactive_zero s hs m hinact
    refine ⟨hinact, hz1, hz2, ?_⟩
    rw [Function.iterate_succ_apply']
    exact applyInertia_inactive false _ hinact
  · intro u
    unfold applyInertia
    split
    · exact ⟨rfl, rfl⟩
    · split
      · rename_i hcond
        exact absurd hcond.1 (by simp)
      · exact ⟨rfl, rfl⟩
  · intro u
    refine ⟨rfl, rfl, rfl, fun b => ?_⟩
    exact applyInertia_inactive b _ rfl

/-- Witness for C7 at a concrete post-release state with velocity (1, 2). -/
theorem inertia_terminates_and_drag_halts_witness :
    (∃ n, ∀ m, n ≤ m →
      ((applyInertia false)^[m]
        { rotX := 0, rotY := 0, vX := 1, vY := 2,
          active := true : InertiaState }).active = false ∧
      ((applyInertia false)^[m]
        { rotX := 0, rotY := 0, vX := 1, vY := 2,
          active := true : InertiaState }).vX = 0 ∧
      ((applyInertia false)^[m]
        { rotX := 0, rotY := 0, vX := 1, vY := 2,
          active := true : InertiaState }).vY = 0 ∧
      (applyInertia false)^[m + 1]
        { rotX := 0, rotY := 0, vX := 1, vY := 2,
          active := true : InertiaState } =
        (applyInertia false)^[m]
          { rotX := 0, rotY := 0, vX := 1, vY := 2,
            active := true : InertiaState }) ∧
    (∀ u : InertiaState, (applyInertia true u).rotX = u.rotX ∧
      (applyInertia true u).rotY = u.rotY) ∧
    (∀ u : InertiaState, (inertiaMouseDown u).active = false ∧
      (inertiaMouseDown u).rotX = u.rotX ∧
      (inertiaMouseDown u).rotY = u.rotY ∧
      ∀ b, applyInertia b (inertiaMouseDown u) = inertiaMouseDown u) :=
  inertia_terminates_and_drag_halts
    { rotX := 0, rotY := 0, vX := 1, vY := 2, active := true } rfl

/-! ## Auto-play scheduler and year sequence (C8, C10)

`EarthController.nextYear` / `previousYear` (`unnamed/part_002` lines
760-777), `startAutoPlay` / `stopAutoPlay` / `resetAutoPlay` (lines
694-755). -/

/-- `const years = ['2000', '2010', '2020', '2050']` (`unnamed/part_002`
line 761). -/
def yearsSeq : List String := ["2000", "2010", "2020", "2050"]

/-- JavaScript `Array.prototype.indexOf`: first index of `y`, or -1. -/
def jsIndexOf : List String → String → Int
  | [], _ => -1
  | a :: tl, y =>
      if a = y then 0
      else
        let r := jsIndexOf tl y
        if r = -1 then -1 else r + 1

/-- `EarthController.nextYear` (`unnamed/part_002` lines 760-766):
`nextIndex = (years.indexOf(currentYear) + 1) % years.length`, then the year
at that index. -/
def nextYearName (y : String) : String :=
  let i := jsIndexOf yearsSeq y
  let nIdx := (i + 1) % (yearsSeq.length : Int)
  yearsSeq.getD nIdx.toNat ""

/-- `EarthController.previousYear` (`unnamed/part_002` lines 771-777):
`prevIndex = (years.indexOf(currentYear) - 1 + years.length) % years.length`. -/
def previousYearName (y : String) : String :=
  let i := jsIndexOf yearsSeq y
  let pIdx := (i - 1 + (yearsSeq.length : Int)) % (yearsSeq.length : Int)
  yearsSeq.getD pIdx.toNat ""

/-- One auto-play interval tick (`unnamed/part_002` lines 697-699):
`this.nextYear()`, which calls `switchYear(years[nextIndex])`. -/
def autoPlayTick (a : AltState) : AltState :=
  (switchYear a (nextYearName a.currentYear)).1

/-- `this.autoPlayInterval = 5000` (`unnamed/part_002` line 187). -/
def autoPlayIntervalMs : Nat := 5000

/-- The auto-play scheduling state: the `autoPlay` flag, the stored interval
handle `autoPlayTimer` (`none` models `null`), the live interval timers of
the page as (id, remaining-ms-until-next-fire) pairs, and the next fresh
interval id the host would issue. -/
structure APState where
  autoPlay : Bool
  autoPlayTimer : Option Nat
  timers : List (Nat × Nat)
  nextId : Nat
  deriving DecidableEq

/-- `clearInterval(id)`: removes the interval with that id. -/
def clearIntervalAP (s : APState) (id : Nat) : APState :=
  { s with timers := s.timers.filter (fun q => q.1 != id) }

/-- `EarthController.startAutoPlay` (`unnamed/part_002` lines 694-710):
sets `autoPlay = true` and unconditionally creates a fresh interval with the
full countdown, storing its handle in `autoPlayTimer`. -/
def startAutoPlay (s : APState) : APState :=
  { s with autoPlay := true,
           autoPlayTimer := some s.nextId,
           timers := s.timers ++ [(s.nextId, autoPlayIntervalMs)],
           nextId := s.nextId + 1 }

/-- `EarthController.stopAutoPlay` (`unnamed/part_002` lines 715-732):
sets `autoPlay = false`, clears the stored interval if there is one, and
nulls the handle. -/
def stopAutoPlay (s : APState) : APState :=
  let s1 :=
    match s.autoPlayTimer with
    | some id => clearIntervalAP s id
    | none => s
  { s1 with autoPlay := false, autoPlayTimer := none }

/-- `EarthController.resetAutoPlay` (`unnamed/part_002` lines 748-755):
only when auto-play is active, clears the existing interval (if any) and
then calls `startAutoPlay`. -/
def resetAutoPlay (s : APState) : APState :=
  if s.autoPlay then
    startAutoPlay
      (match s.autoPlayTimer with
       | some id => clearIntervalAP s id
       | none => s)
  else s

/-- C8: auto-play ticks visit the year sequence cyclically — from 2000 the
first five ticks show 2010, 2020, 2050, 2000, 2010 — and `resetAutoPlay`,
called while auto-play is active and every live interval is the stored
auto-play interval, clears the old interval before starting the new one,
leaving exactly one live auto-play timer whose countdown is the full
interval again. -/
theorem autoplay_cycle_and_reset :
    ((autoPlayTick^[1]
        { currentYear := "2000", globeRotationX := 0,
          globeRotationY := 0 : AltState }).currentYear = "2010" ∧
     (autoPlayTick^[2]
        { currentYear := "2000", globeRotationX := 0,
          globeRotationY := 0 : AltState }).currentYear = "2020" ∧
     (autoPlayTick^[3]
        { currentYear := "2000", globeRotationX := 0,
          globeRotationY := 0 : AltState }).currentYear = "2050" ∧
     (autoPlayTick^[4]
        { currentYear := "2000", globeRotationX := 0,
          globeRotationY := 0 : AltState }).currentYear = "2000" ∧
     (autoPlayTick^[5]
        { currentYear := "2000", globeRotationX := 0,
          globeRotationY := 0 : AltState }).currentYear = "2010") ∧
    (∀ s : APState, s.autoPlay = true →
      (∀ q ∈ s.timers, some q.1 = s.autoPlayTimer) →
      (resetAutoPlay s).timers = [(s.nextId, autoPlayIntervalMs)] ∧
      (resetAutoPlay s).autoPlayTimer = some s.nextId) := by
  constructor
  · refine ⟨?_, ?_, ?_, ?_, ?_⟩ <;> decide
  · intro s hap honly
    unfold resetAutoPlay
    rw [if_pos hap]
    match hmt : s.autoPlayTimer with
    | some id =>
        have hfilter : s.timers.filter (fun q => q.1 != id) = [] := by
          rw [List.filter_eq_nil_iff]
          intro q hq
          have hq' := honly q hq
          rw [hmt] at hq'
          have hqid : q.1 = id := Option.some.inj hq'
          simp [hqid]
        constructor
        · simp [startAutoPlay, clearIntervalAP, hfilter]
        · simp [startAutoPlay, clearIntervalAP]
    | none =>
        have hempty : s.timers = [] := by
          cases htm : s.timers with
          | nil => rfl
          | cons q tl =>
              have hq' := honly q (by rw [htm]; exact List.mem_cons_self q tl)
              rw [hmt] at hq'
              exact absurd hq' (by simp)
        constructor
        · simp [startAutoPlay, hempty]
        · simp [startAutoPlay]

/-- Witness for C8's reset part: resetting from an active auto-play state
whose single live interval (id 0) is partway through its countdown leaves
exactly one fresh interval (id 1) with the full 5000 ms countdown. -/
theorem autoplay_cycle_and_reset_witness :
    ({ autoPlay := true, autoPlayTimer := some 0, timers := [(0, 1234)],
       nextId := 1 : APState }.autoPlay = true) ∧
    (resetAutoPlay
      { autoPlay := true, autoPlayTimer := some 0, timers := [(0, 1234)],
        nextId := 1 }).timers = [(1, autoPlayIntervalMs)] ∧
    (resetAutoPlay
      { autoPlay := true, autoPlayTimer := some 0, timers := [(0, 1234)],
        nextId := 1 }).autoPlayTimer = some 1 :=
  ⟨rfl,
   ((autoplay_cycle_and_reset).2
      { autoPlay := true, autoPlayTimer := some 0, timers := [(0, 1234)],
        nextId := 1 }
      rfl (by decide)).1,
   ((autoplay_cycle_and_reset).2
      { autoPlay := true, autoPlayTimer := some 0, timers := [(0, 1234)],
        nextId := 1 }
      rfl (by decide)).2⟩

lemma jsIndexOf_eq_neg_one (y : String) (hy : yearsSeq.contains y = false) :
    jsIndexOf yearsSeq y = -1 := by
  have hmem : y ∉ yearsSeq := by simpa using hy
  have h1 : ¬ ("2000" = y) := fun h => hmem (h ▸ (by decide : "2000" ∈ yearsSeq))
  have h2 : ¬ ("2010" = y) := fun h => hmem (h ▸ (by decide : "2010" ∈ yearsSeq))
  have h3 : ¬ ("2020" = y) := fun h => hmem (h ▸ (by decide : "2020" ∈ yearsSeq))
  have h4 : ¬ ("2050" = y) := fun h => hmem (h ▸ (by decide : "2050" ∈ yearsSeq))
  simp [yearsSeq, jsIndexOf, h1, h2, h3, h4]

/-- C10: for any current year outside the closed year list, `indexOf` yields
-1, so `nextYear()` switches to "2000" ((−1+1) mod 4 = 0) and
`previousYear()` to "2020" ((−1−1+4) mod 4 = 2); hence a single auto-play
tick from a corrupted current year commits a year back inside the closed
set. -/
theorem corrupted_year_recovers (y : String) (a : AltState)
    (hy : yearsSeq.contains y = false) (ha : a.currentYear = y) :
    nextYearName y = "2000" ∧ previousYearName y = "2020" ∧
    yearsSeq.contains (autoPlayTick a).currentYear = true := by
  have hjs := jsIndexOf_eq_neg_one y hy
  have hnext : nextYearName y = "2000" := by
    simp only [nextYearName]
    rw [hjs]
    decide
  have hprev : previousYearName y = "2020" := by
    simp only [previousYearName]
    rw [hjs]
    decide
  refine ⟨hnext, hprev, ?_⟩
  have hne' : y ≠ "2000" := by
    intro h
    rw [h] at hy
    exact absurd hy (by decide)
  have hswitch : (autoPlayTick a).currentYear = "2000" := by
    unfold autoPlayTick
    rw [ha, hnext]
    simp [switchYear, ha, hne']
  rw [hswitch]
  decide

/-- Witness for C10 at the corrupted current year "1999". -/
theorem corrupted_year_recovers_witness :
    nextYearName "1999" = "2000" ∧ previousYearName "1999" = "2020" ∧
    yearsSeq.contains (autoPlayTick
      { currentYear := "1999", globeRotationX := 0,
        globeRotationY := 0 }).currentYear = true :=
  corrupted_year_recovers "1999"
    { currentYear := "1999", globeRotationX := 0, globeRotationY := 0 }
    (by decide) rfl

/-! ## Alternate-build constructor (C9)

`EarthController`'s constructor in `unnamed/part_002` (lines 183-199)
contains `this.autoPlay = True;` — `True` (capital T) is not a JavaScript
literal and no binding of that name exists in the program or in browser
globals, so evaluating the right-hand side throws a `ReferenceError`. -/

/-- JavaScript runtime errors relevant here. -/
inductive JsError where
  | referenceError (name : String)
  deriving DecidableEq

/-- The boolean literals of JavaScript.  Identifier resolution for a
boolean-valued name in the constructor's scope: only the keywords `true` and
`false` denote booleans; the program and the browser global scope define no
binding named `True`, so any other name throws `ReferenceError`. -/
def boolLiterals : List (String × Bool) := [("true", true), ("false", false)]

/-- Evaluate a boolean literal or identifier as the constructor would. -/
def evalBoolIdent (name : String) : Except JsError Bool :=
  match List.lookup name boolLiterals with
  | some b => Except.ok b
  | none => Except.error (JsError.referenceError name)

/-- The fields the alternate build's `EarthController` constructor
(`unnamed/part_002` lines 183-199) would initialize, in source order, if it
completed; `initCalled` records that `this.init()` ran at the end. -/
structure AltCtorFields where
  currentYear : String
  autoPlay : Bool
  autoPlayTimerIsNull : Bool
  autoPlayInterval : Nat
  globeRotationX : Rat
  globeRotationY : Rat
  isRotatingGlobe : Bool
  initCalled : Bool
  deriving DecidableEq

/-- The alternate build's `EarthController` constructor: assigns
`currentYear = '2000'`, then evaluates `this.autoPlay = True;` — the
evaluation of the identifier `True` — and only on success would proceed to
the remaining field initializers and `this.init()`. -/
def altEarthCtor : Except JsError AltCtorFields := do
  let currentYear := "2000"
  let autoPlay ← evalBoolIdent "True"
  Except.ok
    { currentYear := currentYear, autoPlay := autoPlay,
      autoPlayTimerIsNull := true, autoPlayInterval := 5000,
      globeRotationX := 0, globeRotationY := 0, isRotatingGlobe := false,
      initCalled := true }

/-- C9: constructing the alternate build's `EarthController` always raises
`ReferenceError: True` before initialization completes — it never yields a
constructed controller (in particular none with a well-defined `autoPlay`
default). -/
theorem alt_ctor_raises_reference_error :
    altEarthCtor = Except.error (JsError.referenceError "True") ∧
    ∀ f : AltCtorFields, altEarthCtor ≠ Except.ok f := by
  constructor
  · rfl
  · intro f h
    rw [show altEarthCtor = Except.error (JsError.referenceError "True")
      from rfl] at h
    exact Except.noConfusion h
